import Mathlib

/-
Shallow embedding of src/TelethonMessageConverter.py.

The source converts a Telegram message plus a list of formatting entities
into a marked-up string (html, markdown, docuwiki, or a plain-text
fallback).  All span arithmetic in the source happens on the UTF-16-LE
encoding of the message (`self._message_b16`), with entity offsets and
lengths multiplied by 2 to turn 16-bit-unit offsets into byte offsets.

Python operations that can raise at runtime (list.pop() on an empty list,
indexing past the end of separations_points, bytes.decode on an invalid
UTF-16 slice, html.escape applied to a non-string) are modelled with
Option: a result of none means the Python code raises an exception
instead of returning a string.
-/

namespace TelethonMessageConverter

/-- Entity kinds of the source protocol: the keys of the syntax
dictionaries in MessageToSyntax.set_syntax_dict (the Python code keys the
dictionary by the runtime class name of each Telethon entity). -/
inductive EntityKind where
  | MessageEntityBankCard
  | MessageEntityBlockquote
  | MessageEntityBold
  | MessageEntityBotCommand
  | MessageEntityCashtag
  | MessageEntityCode
  | MessageEntityCustomEmoji
  | MessageEntityEmail
  | MessageEntityHashtag
  | MessageEntityItalic
  | MessageEntityMention
  | MessageEntityMentionName
  | MessageEntityPhone
  | MessageEntityPre
  | MessageEntitySpoiler
  | MessageEntityStrike
  | MessageEntityTextUrl
  | MessageEntityUnderline
  | MessageEntityUnknown
  | MessageEntityUrl
deriving DecidableEq, Repr

/-- A message entity: kind, start offset and length in 16-bit text units,
and the kind-specific payload fields (url for MessageEntityTextUrl,
language for MessageEntityPre, user_id for MessageEntityMentionName;
user_id is an integer in the Telethon protocol). -/
structure Entity where
  kind : EntityKind
  offset : Nat
  length : Nat
  url : String := ""
  language : String := ""
  user_id : Int := 0
deriving DecidableEq, Repr

/-- The source's _Tag named tuple: an (opening, closing) markup pair. -/
structure Tag where
  opening : String
  closing : String
deriving DecidableEq, Repr

/-- One value of the syntax dictionary: None in Python (entity dropped),
a static _Tag, or a callable producing a _Tag from the entity and the
decoded text it covers.  A maker returns Option because the Python
callables can raise (html.escape applied to an int user_id). -/
inductive TagRule where
  | noTag : TagRule
  | static (t : Tag) : TagRule
  | maker (f : Entity → String → Option Tag) : TagRule

/-- The resolved syntax dictionary: entity-kind entries plus the two
distinguished break tags.  The Python dict stores TagsParagraph and
TagsNewline under string keys and reads them with .get and a default;
every built-in dictionary defines both keys, so they are plain fields
here. -/
structure SyntaxDict where
  entityTag : EntityKind → TagRule
  tagsParagraph : Tag
  tagsNewline : Tag

/-- Python html.escape of a single character (quote=True default):
the five replacements performed by html.escape.  The sequential
str.replace calls of the stdlib are equivalent to this per-character map
because no replacement string contains a character replaced later. -/
def escapeChar (c : Char) : String :=
  if c = '&' then "&amp;"
  else if c = '<' then "&lt;"
  else if c = '>' then "&gt;"
  else if c = '"' then "&quot;"
  else if c = '\x27' then "&#x27;"
  else String.singleton c

/-- Python html.escape on a string. -/
def escape (s : String) : String :=
  String.join (s.toList.map escapeChar)

/-- The UTF-16 code units of one character: one unit below 0x10000,
otherwise a surrogate pair. -/
def u16UnitsOfChar (c : Char) : List Nat :=
  let v := c.toNat
  if v < 0x10000 then [v]
  else
    let w := v - 0x10000
    [0xD800 + w / 0x400, 0xDC00 + w % 0x400]

/-- The UTF-16-LE bytes of one character (low byte first per unit). -/
def encodeChar (c : Char) : List Nat :=
  (u16UnitsOfChar c).flatMap (fun u => [u % 256, u / 256])

/-- str.encode('utf-16-le'): the byte sequence the source stores as
self._message_b16. -/
def encodeB16 (s : String) : List Nat :=
  s.toList.flatMap encodeChar

/-- Pair up little-endian bytes into 16-bit units; an odd number of bytes
makes bytes.decode('utf-16-le') raise, modelled as none. -/
def bytesToUnits : List Nat → Option (List Nat)
  | [] => some []
  | [_] => none
  | b0 :: b1 :: rest => (bytesToUnits rest).map (fun us => (b0 + 256 * b1) :: us)

/-- Combine UTF-16 units back into characters; a lone or misordered
surrogate makes bytes.decode('utf-16-le') raise, modelled as none. -/
def unitsToChars : List Nat → Option (List Char)
  | [] => some []
  | u :: rest =>
    if u < 0xD800 ∨ 0xE000 ≤ u then
      (unitsToChars rest).map (fun cs => Char.ofNat u :: cs)
    else if u < 0xDC00 then
      match rest with
      | [] => none
      | lo :: rest2 =>
        if 0xDC00 ≤ lo ∧ lo < 0xE000 then
          (unitsToChars rest2).map
            (fun cs => Char.ofNat (0x10000 + (u - 0xD800) * 0x400 + (lo - 0xDC00)) :: cs)
        else none
    else none

/-- bytes.decode('utf-16-le'). -/
def decodeB16 (bytes : List Nat) : Option String :=
  (bytesToUnits bytes).bind (fun us => (unitsToChars us).map String.mk)

/-- Python slice b[a:c] on a byte list. -/
def sliceBytes (l : List Nat) (a c : Nat) : List Nat :=
  (l.take c).drop a

/-- The source's _PositionChange record. -/
structure PositionChange where
  to_open : List Tag
  to_close : List Tag
  br : Bool
deriving Repr

/-- The _positions dict is modelled as an association list with unique
keys; insertion order is irrelevant because the renderer sorts the keys. -/
abbrev Positions := List (Nat × PositionChange)

/-- MessageToSyntax._ensure_position_exists. -/
def ensurePosition (ps : Positions) (i : Nat) : Positions :=
  if ps.any (fun p => p.1 == i) then ps else ps ++ [(i, ⟨[], [], false⟩)]

/-- In-place mutation of the record stored at key i (no effect when the
key is absent; callers ensure presence first, as the Python code does). -/
def updatePosition (ps : Positions) (i : Nat) (f : PositionChange → PositionChange) :
    Positions :=
  ps.map (fun p => if p.1 == i then (p.1, f p.2) else p)

/-- Dictionary lookup self._positions[index]; every index the renderer
visits is a key of the dictionary, so the default is unreachable. -/
def getPosition (ps : Positions) (i : Nat) : PositionChange :=
  ((List.lookup i ps).getD ⟨[], [], false⟩)

/-- positions[start].to_open.append(tag); positions[end].to_close.insert(0, tag) -/
def addTag (ps : Positions) (start stop : Nat) (t : Tag) : Positions :=
  let ps1 := updatePosition ps start (fun c => { c with to_open := c.to_open ++ [t] })
  updatePosition ps1 stop (fun c => { c with to_close := t :: c.to_close })

/-- Mark the line-break flag at key i. -/
def setBr (ps : Positions) (i : Nat) : Positions :=
  updatePosition ps i (fun c => { c with br := true })

/-- Python str.lower(), as used on the syntax selector (the recognized
identifiers are ASCII, where the two functions agree). -/
def strLower (s : String) : String :=
  String.mk (s.toList.map Char.toLower)

/-- The "docuwiki" | "dw" dictionary of set_syntax_dict.  The
MessageEntityMentionName entry interpolates escape(e.user_id) where
user_id is an int: html.escape immediately calls .replace on its
argument, so the Python callable raises AttributeError, modelled by
returning none. -/
def dwDict : SyntaxDict where
  entityTag k :=
    match k with
    | .MessageEntityBankCard => .noTag
    | .MessageEntityBlockquote => .static ⟨"> ", ""⟩
    | .MessageEntityBold => .static ⟨"**", "**"⟩
    | .MessageEntityBotCommand => .noTag
    | .MessageEntityCashtag => .noTag
    | .MessageEntityCode => .static ⟨"\n  ", ""⟩
    | .MessageEntityCustomEmoji => .noTag
    | .MessageEntityEmail => .maker fun _ s => some ⟨"[[mailto:" ++ escape s ++ "|", "]]"⟩
    | .MessageEntityHashtag => .noTag
    | .MessageEntityItalic => .static ⟨"//", "//"⟩
    | .MessageEntityMention => .maker fun _ s => some ⟨"[[https://t.me/" ++ escape s ++ "|", "]]"⟩
    | .MessageEntityMentionName => .maker fun _ _ => none
    | .MessageEntityPhone => .maker fun _ s => some ⟨"[[tel:" ++ escape s ++ "|", "]]"⟩
    | .MessageEntityPre => .maker fun e _ => some ⟨"<pre language=\"" ++ escape e.language ++ "\">", "</pre>"⟩
    | .MessageEntitySpoiler => .static ⟨"??", "??"⟩
    | .MessageEntityStrike => .static ⟨"<del>", "</del>>"⟩
    | .MessageEntityTextUrl => .maker fun e _ => some ⟨"[[" ++ escape e.url ++ "|", "]]"⟩
    | .MessageEntityUnderline => .static ⟨"__", "__"⟩
    | .MessageEntityUnknown => .noTag
    | .MessageEntityUrl => .maker fun _ s => some ⟨"[[" ++ escape s ++ "|", "]]"⟩
  tagsParagraph := ⟨"", "\n"⟩
  tagsNewline := ⟨"", "\n"⟩

/-- The "markdown" | "md" dictionary of set_syntax_dict (the TextUrl
closing text interpolates the url behind the literal prefix "](tel:" as
written in the source). -/
def mdDict : SyntaxDict where
  entityTag k :=
    match k with
    | .MessageEntityBankCard => .noTag
    | .MessageEntityBlockquote => .static ⟨"> ", ""⟩
    | .MessageEntityBold => .static ⟨"**", "**"⟩
    | .MessageEntityBotCommand => .noTag
    | .MessageEntityCashtag => .noTag
    | .MessageEntityCode => .static ⟨"`", "`"⟩
    | .MessageEntityCustomEmoji => .noTag
    | .MessageEntityEmail => .maker fun _ s => some ⟨"[", "](mailto:" ++ escape s ++ ")"⟩
    | .MessageEntityHashtag => .noTag
    | .MessageEntityItalic => .static ⟨"*", "*"⟩
    | .MessageEntityMention => .maker fun _ s => some ⟨"[", "](https://t.me/" ++ escape s ++ ")"⟩
    | .MessageEntityMentionName => .maker fun _ _ => none
    | .MessageEntityPhone => .maker fun _ s => some ⟨"[", "](tel:" ++ escape s ++ ")"⟩
    | .MessageEntityPre => .maker fun e _ => some ⟨"```" ++ escape e.language ++ "\n", "\n```"⟩
    | .MessageEntitySpoiler => .static ⟨"||", "||"⟩
    | .MessageEntityStrike => .static ⟨"~~", "~~"⟩
    | .MessageEntityTextUrl => .maker fun e _ => some ⟨"[", "](tel:" ++ escape e.url ++ ")"⟩
    | .MessageEntityUnderline => .static ⟨"__", "__"⟩
    | .MessageEntityUnknown => .noTag
    | .MessageEntityUrl => .maker fun _ s => some ⟨"[", "](" ++ escape s ++ ")"⟩
  tagsParagraph := ⟨"", "\n"⟩
  tagsNewline := ⟨"", "\n"⟩

/-- The "html" dictionary of set_syntax_dict. -/
def htmlDict : SyntaxDict where
  entityTag k :=
    match k with
    | .MessageEntityBankCard => .noTag
    | .MessageEntityBlockquote => .static ⟨"<blockquote>", "</blockquote>"⟩
    | .MessageEntityBold => .static ⟨"<b>", "</b>"⟩
    | .MessageEntityBotCommand => .noTag
    | .MessageEntityCashtag => .noTag
    | .MessageEntityCode => .static ⟨"<pre>", "</pre>"⟩
    | .MessageEntityCustomEmoji => .noTag
    | .MessageEntityEmail => .maker fun _ s => some ⟨"<a href=\"mailto:" ++ escape s ++ "\">", "</a>"⟩
    | .MessageEntityHashtag => .static ⟨"<a href=\"#\">", "</a>"⟩
    | .MessageEntityItalic => .static ⟨"<i>", "</i>"⟩
    | .MessageEntityMention => .maker fun _ s => some ⟨"<a href=\"https://t.me/" ++ escape s ++ "\">", "</a>"⟩
    | .MessageEntityMentionName => .maker fun _ _ => none
    | .MessageEntityPhone => .maker fun _ s => some ⟨"<a href=\"tel:" ++ escape s ++ "\">", "</a>"⟩
    | .MessageEntityPre => .maker fun e _ => some ⟨"<pre language=\"" ++ escape e.language ++ "\">", "</pre>"⟩
    | .MessageEntitySpoiler => .static ⟨"[", "]"⟩
    | .MessageEntityStrike => .static ⟨"<s>", "</s>"⟩
    | .MessageEntityTextUrl => .maker fun e _ => some ⟨"<a href=\"" ++ escape e.url ++ "\">", "</a>"⟩
    | .MessageEntityUnderline => .static ⟨"<span style=\"text-decoration: underline\">", "</span>"⟩
    | .MessageEntityUnknown => .noTag
    | .MessageEntityUrl => .maker fun _ s => some ⟨"<a href=\"" ++ escape s ++ "\">", "</a>"⟩
  tagsParagraph := ⟨"<p>", "</p>"⟩
  tagsNewline := ⟨"", "<br />"⟩

/-- The default (plain text) dictionary of set_syntax_dict, selected for
every unrecognized syntax identifier.  As in the other dictionaries, the
MessageEntityMentionName callable applies html.escape to the int user_id
and raises, modelled by none. -/
def fallbackDict : SyntaxDict where
  entityTag k :=
    match k with
    | .MessageEntityBankCard => .noTag
    | .MessageEntityBlockquote => .static ⟨"«", "»"⟩
    | .MessageEntityBold => .noTag
    | .MessageEntityBotCommand => .noTag
    | .MessageEntityCashtag => .noTag
    | .MessageEntityCode => .noTag
    | .MessageEntityCustomEmoji => .noTag
    | .MessageEntityEmail => .noTag
    | .MessageEntityHashtag => .noTag
    | .MessageEntityItalic => .noTag
    | .MessageEntityMention => .noTag
    | .MessageEntityMentionName => .maker fun _ _ => none
    | .MessageEntityPhone => .noTag
    | .MessageEntityPre => .noTag
    | .MessageEntitySpoiler => .noTag
    | .MessageEntityStrike => .noTag
    | .MessageEntityTextUrl => .maker fun e _ => some ⟨"", " (" ++ escape e.url ++ ")"⟩
    | .MessageEntityUnderline => .noTag
    | .MessageEntityUnknown => .noTag
    | .MessageEntityUrl => .noTag
  tagsParagraph := ⟨"", "\n"⟩
  tagsNewline := ⟨"", "\n"⟩

/-- MessageToSyntax.set_syntax_dict: match type.lower() with the
recognized identifiers, anything else selects the plain-text fallback. -/
def set_syntax_dict (ty : String) : SyntaxDict :=
  let t := strLower ty
  if t = "docuwiki" ∨ t = "dw" then dwDict
  else if t = "markdown" ∨ t = "md" then mdDict
  else if t = "html" then htmlDict
  else fallbackDict

/-- One step of MessageToSyntax._prepare_entity_positions_utf16le: ensure
the start and end byte offsets exist, resolve the tag (calling the
dynamic maker on the decoded covered bytes), and when the tag is not
None append it to to_open at the start and insert it at the front of
to_close at the end. -/
def prepareEntity (dict : SyntaxDict) (b16 : List Nat) (ps : Positions) (e : Entity) :
    Option Positions :=
  let start := e.offset * 2
  let stop := (e.offset + e.length) * 2
  let ps1 := ensurePosition (ensurePosition ps start) stop
  match dict.entityTag e.kind with
  | .noTag => some ps1
  | .static t => some (addTag ps1 start stop t)
  | .maker f => do
    let txt ← decodeB16 (sliceBytes b16 start stop)
    let t ← f e txt
    some (addTag ps1 start stop t)

/-- MessageToSyntax._prepare_entity_positions_utf16le: the early return
on a falsy entities argument, then one pass over the entities in input
order. -/
def prepareEntities (dict : SyntaxDict) (b16 : List Nat) (ps : Positions) :
    Option (List Entity) → Option Positions
  | none => some ps
  | some es => es.foldlM (prepareEntity dict b16) ps

/-- Walk the characters of the message keeping the running UTF-16-LE
byte offset; at each newline character, ensure its byte offset exists
and set the br flag (MessageToSyntax._prepare_br_positions computes
len(message[0:i].encode('utf-16-le')), the byte length of the prefix
before the character). -/
def prepareBrAux : Positions → Nat → List Char → Positions
  | ps, _, [] => ps
  | ps, off, c :: rest =>
    let ps1 := if c = '\n' then setBr (ensurePosition ps off) off else ps
    prepareBrAux ps1 (off + (encodeChar c).length) rest

/-- MessageToSyntax._prepare_br_positions. -/
def prepareBrPositions (msg : List Char) (ps : Positions) : Positions :=
  prepareBrAux ps 0 msg

/-- Insertion into a sorted list of keys. -/
def insertSorted (n : Nat) : List Nat → List Nat
  | [] => [n]
  | m :: rest => if n ≤ m then n :: m :: rest else m :: insertSorted n rest

/-- sorted(self._positions.keys()). -/
def sortKeys (l : List Nat) : List Nat :=
  l.foldr insertSorted []

/-- The tag-closing loop of the renderer: for each tag in to_close, pop
the open-tags stack (the stack grows at the end of the list, so pop
removes the last element; popping an empty stack raises IndexError,
modelled as none) and append the closing text. -/
def closeTags : List Tag → List Tag → String → Option (String × List Tag)
  | [], opened, out => some (out, opened)
  | t :: ts, opened, out =>
    match opened with
    | [] => none
    | _ :: _ => closeTags ts opened.dropLast (out ++ t.closing)

/-- The tag-opening loop of the renderer: push each tag of to_open onto
the stack and append its opening text. -/
def openTags : List Tag → List Tag → String → String × List Tag
  | [], opened, out => (out, opened)
  | t :: ts, opened, out => openTags ts (opened ++ [t]) (out ++ t.opening)

/-- The line-break test of the renderer:
self._ENTITIES_TO_TAG['MessageEntityCode'] in opened_tags.  The
dictionary entry for MessageEntityCode is compared against the _Tag
elements of the stack; a None or callable entry never equals a _Tag. -/
def codeInOpened (rule : TagRule) (opened : List Tag) : Bool :=
  match rule with
  | .static t => opened.contains t
  | _ => false

/-- str.replace of the newline character with the empty string. -/
def removeNewlines (s : String) : String :=
  String.mk (s.toList.filter (fun c => c != '\n'))

/-- The main loop of MessageToSyntax.to_syntax over the sorted
separation points, carrying the open-tags stack and the accumulated
output.  next_index is separations_points[pos + 1] unless the current
index equals the byte length of the message; reading past the end of the
list raises IndexError, modelled as none. -/
def renderLoop (b16 : List Nat) (msgLen : Nat) (ps : Positions) (codeRule : TagRule)
    (tagParagraph tagNewline : Tag) :
    List Nat → List Tag → String → Option String
  | [], _, out => some out
  | index :: rest, opened, out => do
    let nextIndex : Option Nat ←
      if index ≠ msgLen then
        match rest with
        | [] => none
        | n :: _ => some (some n)
      else some none
    let seg ← decodeB16 (match nextIndex with
      | some n => sliceBytes b16 index n
      | none => b16.drop index)
    let chg := getPosition ps index
    let (out1, opened1) ← closeTags chg.to_close opened out
    let out2 :=
      if chg.br then
        if codeInOpened codeRule opened1 then out1 ++ tagNewline.closing
        else out1 ++ tagParagraph.closing ++ tagParagraph.opening
      else out1
    let (out3, opened2) := openTags chg.to_open opened1 out2
    let out4 := out3 ++ escape (removeNewlines seg)
    renderLoop b16 msgLen ps codeRule tagParagraph tagNewline rest opened2 out4

/-- Python `not self._entities`: true for an absent (None) or empty
entity list. -/
def entitiesFalsy : Option (List Entity) → Bool
  | none => true
  | some [] => true
  | some (_ :: _) => false

/-- The instance state of a MessageToSyntax object: the fields set by
__init__ and mutated by later calls (output and the _positions dict are
instance attributes, not locals). -/
structure MState where
  message : String
  entities : Option (List Entity)
  output : String
  messageB16 : List Nat
  positions : Positions

/-- MessageToSyntax.__init__(message, entities). -/
def MState.init (message : String) (entities : Option (List Entity)) : MState :=
  { message := message
    entities := entities
    output := ""
    messageB16 := encodeB16 message
    positions := [] }

/-- MessageToSyntax.to_syntax(type): returns the rendered string together
with the object state after the call (output and _positions are stored
on self).  none models a raised exception. -/
def toSyntaxFull (st : MState) (ty : String) : Option (String × MState) :=
  if entitiesFalsy st.entities && !(st.message.toList.contains '\n') then
    some (st.message, { st with output := st.message })
  else do
    let dict := set_syntax_dict ty
    let tagParagraph := dict.tagsParagraph
    let tagNewline := dict.tagsNewline
    let msgLen := st.messageB16.length
    let ps0 := ensurePosition (ensurePosition st.positions 0) msgLen
    let ps1 ← prepareEntities dict st.messageB16 ps0 st.entities
    let ps2 := prepareBrPositions st.message.toList ps1
    let points := sortKeys (ps2.map Prod.fst)
    let out ← renderLoop st.messageB16 msgLen ps2 (dict.entityTag .MessageEntityCode)
      tagParagraph tagNewline points [] st.output
    let out1 :=
      if tagParagraph.opening ≠ "" ∨ tagParagraph.closing ≠ "" then
        tagParagraph.opening ++ out ++ tagParagraph.closing
      else out
    some (out1, { st with output := out1, positions := ps2 })

/-- The conversion entry point on a freshly constructed object:
MessageToSyntax(message, entities).to_syntax(syntax). -/
def convert (msg : String) (ents : Option (List Entity)) (ty : String) : Option String :=
  (toSyntaxFull (MState.init msg ents) ty).map Prod.fst

/-- The line-break test as the specification words it: the code tag must
be "the top of the open-tags stack" (the stack grows at the end of the
list, so its top is the last element).  This definition follows the
specification text, for comparison with codeInOpened, which follows the
source (membership anywhere in the stack). -/
def codeAtTopOfStack (rule : TagRule) (opened : List Tag) : Bool :=
  match rule with
  | .static t =>
    match opened.getLast? with
    | some x => x == t
    | none => false
  | _ => false

/-- The render loop as the specification words it: identical to
renderLoop except that the line-break branch tests the top of the
open-tags stack instead of membership. -/
def renderLoopTopBr (b16 : List Nat) (msgLen : Nat) (ps : Positions) (codeRule : TagRule)
    (tagParagraph tagNewline : Tag) :
    List Nat → List Tag → String → Option String
  | [], _, out => some out
  | index :: rest, opened, out => do
    let nextIndex : Option Nat ←
      if index ≠ msgLen then
        match rest with
        | [] => none
        | n :: _ => some (some n)
      else some none
    let seg ← decodeB16 (match nextIndex with
      | some n => sliceBytes b16 index n
      | none => b16.drop index)
    let chg := getPosition ps index
    let (out1, opened1) ← closeTags chg.to_close opened out
    let out2 :=
      if chg.br then
        if codeAtTopOfStack codeRule opened1 then out1 ++ tagNewline.closing
        else out1 ++ tagParagraph.closing ++ tagParagraph.opening
      else out1
    let (out3, opened2) := openTags chg.to_open opened1 out2
    let out4 := out3 ++ escape (removeNewlines seg)
    renderLoopTopBr b16 msgLen ps codeRule tagParagraph tagNewline rest opened2 out4

/-- The conversion as the specification words the line-break rule:
identical to toSyntaxFull except for using renderLoopTopBr. -/
def toSyntaxTopBr (st : MState) (ty : String) : Option (String × MState) :=
  if entitiesFalsy st.entities && !(st.message.toList.contains '\n') then
    some (st.message, { st with output := st.message })
  else do
    let dict := set_syntax_dict ty
    let tagParagraph := dict.tagsParagraph
    let tagNewline := dict.tagsNewline
    let msgLen := st.messageB16.length
    let ps0 := ensurePosition (ensurePosition st.positions 0) msgLen
    let ps1 ← prepareEntities dict st.messageB16 ps0 st.entities
    let ps2 := prepareBrPositions st.message.toList ps1
    let points := sortKeys (ps2.map Prod.fst)
    let out ← renderLoopTopBr st.messageB16 msgLen ps2 (dict.entityTag .MessageEntityCode)
      tagParagraph tagNewline points [] st.output
    let out1 :=
      if tagParagraph.opening ≠ "" ∨ tagParagraph.closing ≠ "" then
        tagParagraph.opening ++ out ++ tagParagraph.closing
      else out
    some (out1, { st with output := out1, positions := ps2 })

/-- Entry point of the specification-worded variant. -/
def convertTopBr (msg : String) (ents : Option (List Entity)) (ty : String) : Option String :=
  (toSyntaxTopBr (MState.init msg ents) ty).map Prod.fst

/-- C1: for any text containing no line-break characters, converting it
with an empty or absent entity list under any syntax returns the input
text unchanged, byte for byte, with no escaping and no paragraph
wrapping, even when the text contains markup-significant characters. -/
theorem c1_fast_path_returns_input (msg : String) (ents : Option (List Entity))
    (ty : String) (h1 : ents = none ∨ ents = some [])
    (h2 : '\n' ∉ msg.toList) :
    convert msg ents ty = some msg := by
  have h3 : '\n' ∉ msg.data := h2
  rcases h1 with h | h <;> subst h <;>
    simp [convert, toSyntaxFull, MState.init, entitiesFalsy, h3]

/-- Witness for C1: a text made of markup-significant characters with an
absent entity list is returned unchanged under the html syntax. -/
theorem c1_fast_path_returns_input_witness :
    ('\n' ∉ "<&*b".toList) ∧ convert "<&*b" none "html" = some "<&*b" :=
  ⟨by decide, c1_fast_path_returns_input "<&*b" none "html" (Or.inl rfl) (by decide)⟩

/-- C2: one Bold entity spanning the whole text with one Italic entity
nested inside closes Italic before Bold under html, in all three nesting
positions: strictly inside, ending at the same offset as Bold (the
builder inserts at the front of that offset's close list), and starting
at the same offset as Bold (the builder appends to the end of that
offset's open list). -/
theorem c2_nested_tags_close_in_reverse_order :
    convert "abcd" (some [{ kind := .MessageEntityBold, offset := 0, length := 4 },
        { kind := .MessageEntityItalic, offset := 1, length := 2 }]) "html"
      = some "<p><b>a<i>bc</i>d</b></p>" ∧
    convert "abcd" (some [{ kind := .MessageEntityBold, offset := 0, length := 4 },
        { kind := .MessageEntityItalic, offset := 2, length := 2 }]) "html"
      = some "<p><b>ab<i>cd</i></b></p>" ∧
    convert "abcd" (some [{ kind := .MessageEntityBold, offset := 0, length := 4 },
        { kind := .MessageEntityItalic, offset := 0, length := 2 }]) "html"
      = some "<p><b><i>ab</i>cd</b></p>" := by
  refine ⟨by decide, by decide, by decide⟩

/-- C3: converting the plain text consisting of one character, a line
break and another character with no entities under html closes and
reopens the paragraph at the interior line break and wraps the whole
output exactly once. -/
theorem c3_paragraph_wrapping :
    convert "A\nB" none "html" = some "<p>A</p><p>B</p>" := by
  decide

/-- C4 counterexample: with a Code entity and a Bold entity both
spanning the text "a\nb", the top of the open-tags stack at the line
break is the Bold tag, not the Code tag, yet the renderer emits the
Newline tag (the source tests membership of the Code tag anywhere in the
stack); a renderer following the claim's top-of-stack rule produces a
different string on the same input, so the claim as stated is false. -/
theorem c4_top_of_stack_counterexample :
    convert "a\nb" (some [{ kind := .MessageEntityCode, offset := 0, length := 3 },
        { kind := .MessageEntityBold, offset := 0, length := 3 }]) "html"
      = some "<p><pre><b>a<br />b</b></pre></p>" ∧
    convert "a\nb" (some [{ kind := .MessageEntityCode, offset := 0, length := 3 },
        { kind := .MessageEntityBold, offset := 0, length := 3 }]) "html"
      ≠ convertTopBr "a\nb" (some [{ kind := .MessageEntityCode, offset := 0, length := 3 },
        { kind := .MessageEntityBold, offset := 0, length := 3 }]) "html" := by
  refine ⟨by decide, by decide⟩

/-- C4 amended: at a line-break offset the renderer emits only the
Newline tag when the code tag is anywhere in the open-tags stack — not
only at its top — and the paragraph close-and-reopen otherwise; in
particular a Code entity spanning an embedded line break renders the
break with the Newline tag, also when another entity is open above the
code entity, while without an open code entity the paragraph is closed
and reopened. -/
theorem c4_amended_code_membership_newline :
    convert "a\nb" (some [{ kind := .MessageEntityCode, offset := 0, length := 3 }]) "html"
      = some "<p><pre>a<br />b</pre></p>" ∧
    convert "a\nb" (some [{ kind := .MessageEntityCode, offset := 0, length := 3 },
        { kind := .MessageEntityBold, offset := 0, length := 3 }]) "html"
      = some "<p><pre><b>a<br />b</b></pre></p>" ∧
    convert "a\nb" (some [{ kind := .MessageEntityBold, offset := 0, length := 3 }]) "html"
      = some "<p><b>a</p><p>b</b></p>" := by
  refine ⟨by decide, by decide, by decide⟩

/-- C5: entity offsets are measured in 16-bit text units, so an entity
spanning exactly one character outside the basic range (two text units)
covers that one character and nothing else, both for the placement of
the opening and closing tags and for the substring handed to a dynamic
tag function (the Url maker interpolates exactly the covered character
into the opening tag). -/
theorem c5_utf16_unit_offsets :
    convert "a😀b" (some [{ kind := .MessageEntityBold, offset := 1, length := 2 }]) "html"
      = some "<p>a<b>😀</b>b</p>" ∧
    convert "a😀b" (some [{ kind := .MessageEntityUrl, offset := 1, length := 2 }]) "html"
      = some "<p>a<a href=\"😀\">😀</a>b</p>" := by
  refine ⟨by decide, by decide⟩

/-- C6 counterexample: the accumulated output and the position index are
instance state of the object, so invoking the conversion a second time
on the same object does not return the same string as the first
invocation when the full algorithm runs: on the text "A\nB" with no
entities and html syntax the second call returns a different string. -/
theorem c6_state_persists_counterexample :
    ((toSyntaxFull (MState.init "A\nB" none) "html").bind
        (fun p => toSyntaxFull p.2 "html")).map Prod.fst
      ≠ (toSyntaxFull (MState.init "A\nB" none) "html").map Prod.fst := by
  decide

/-- C6 amended: state does persist across calls (the output string and
the position index are stored on the object), so a repeated invocation
returns the same string only when the fast path applies: with an empty
or absent entity list and no line break in the text, the first and the
second invocation on the same object both return the input text. -/
theorem c6_amended_fast_path_repeatable (msg : String) (ents : Option (List Entity))
    (ty : String) (h1 : ents = none ∨ ents = some [])
    (h2 : '\n' ∉ msg.toList) :
    ((toSyntaxFull (MState.init msg ents) ty).bind
        (fun p => toSyntaxFull p.2 ty)).map Prod.fst = some msg ∧
    (toSyntaxFull (MState.init msg ents) ty).map Prod.fst = some msg := by
  have h3 : '\n' ∉ msg.data := h2
  rcases h1 with h | h <;> subst h <;>
    exact ⟨by simp [toSyntaxFull, MState.init, entitiesFalsy, h3],
      by simp [toSyntaxFull, MState.init, entitiesFalsy, h3]⟩

/-- Witness for the amended C6: two successive calls on one object both
return "ab" for the markdown syntax. -/
theorem c6_amended_fast_path_repeatable_witness :
    ('\n' ∉ "ab".toList) ∧
    ((toSyntaxFull (MState.init "ab" none) "md").bind
        (fun p => toSyntaxFull p.2 "md")).map Prod.fst = some "ab" :=
  ⟨by decide, (c6_amended_fast_path_repeatable "ab" none "md" (Or.inl rfl) (by decide)).1⟩

/-- C7: every syntax string whose lower-cased form is not a recognized
identifier selects the plain-text fallback dictionary; under it a
labeled link renders its inner text followed by a trailing parenthetical
holding the escaped url, and a mention by handle produces no markup at
all, while a mention by numeric id raises at render time — the fallback
dictionary maps it to a trailing parenthetical, but the tag maker
applies the string-only escaper html.escape to the int user_id, so the
conversion returns no string (the code bug the claim runs into). -/
theorem c7_fallback_dict_and_mention_crash :
    (∀ ty : String, strLower ty ∉ ["docuwiki", "dw", "markdown", "md", "html"] →
      set_syntax_dict ty = fallbackDict) ∧
    convert "hi" (some [{ kind := .MessageEntityTextUrl, offset := 0, length := 2,
                          url := "u<rl" }]) "xyz" = some "hi (u&lt;rl)\n" ∧
    convert "hi" (some [{ kind := .MessageEntityMention, offset := 0, length := 2 }]) "xyz"
      = some "hi\n" ∧
    convert "hi" (some [{ kind := .MessageEntityMentionName, offset := 0, length := 2,
                          user_id := 5 }]) "xyz" = none := by
  refine ⟨?_, by decide, by decide, by decide⟩
  intro ty h
  simp only [List.mem_cons, List.not_mem_nil, or_false, not_or] at h
  obtain ⟨h1, h2, h3, h4, h5⟩ := h
  simp [set_syntax_dict, h1, h2, h3, h4, h5]

/-- Witness for C7: the syntax string "xyz" is unrecognized and selects
the fallback dictionary. -/
theorem c7_fallback_dict_and_mention_crash_witness :
    (strLower "xyz" ∉ ["docuwiki", "dw", "markdown", "md", "html"]) ∧
    set_syntax_dict "xyz" = fallbackDict :=
  ⟨by decide, c7_fallback_dict_and_mention_crash.1 "xyz" (by decide)⟩

/-- C8: under html, literal text is escaped whenever the full algorithm
runs: with no entities but a line break forcing the full path, the
characters of the lt, gt and amp family appear as character references;
the same holds when an entity is present without any line break. -/
theorem c8_html_escaping_on_full_path :
    convert "<>&\nx" none "html" = some "<p>&lt;&gt;&amp;</p><p>x</p>" ∧
    convert "a<b" (some [{ kind := .MessageEntityBold, offset := 0, length := 1 }]) "html"
      = some "<p><b>a</b>&lt;b</p>" := by
  refine ⟨by decide, by decide⟩

/-- C9: the renderer applies html.escape to literal text under every
target syntax, not only html: under the markdown, docuwiki and
plain-text fallback dictionaries the five escaped characters of the
message text are replaced by html character references whenever the full
algorithm runs. -/
theorem c9_escape_under_all_dicts :
    convert (String.mk ['&', '<', '>', '"', '\x27', '\n', 'x']) none "markdown"
      = some ("&amp;&lt;&gt;&quot;&#x27;\nx\n") ∧
    convert (String.mk ['&', '<', '>', '"', '\x27', '\n', 'x']) none "docuwiki"
      = some ("&amp;&lt;&gt;&quot;&#x27;\nx\n") ∧
    convert (String.mk ['&', '<', '>', '"', '\x27', '\n', 'x']) none "sometext"
      = some ("&amp;&lt;&gt;&quot;&#x27;\nx\n") := by
  refine ⟨by decide, by decide, by decide⟩

/-- C10: a zero-length Bold entity under html places its tag in both the
close list and the open list of the same offset; the renderer processes
the close list first and pops an empty open-tag stack, so the conversion
raises instead of returning a string — at the start, in the interior and
at the end of the text. -/
theorem c10_zero_length_entity_raises :
    convert "ab" (some [{ kind := .MessageEntityBold, offset := 0, length := 0 }]) "html"
      = none ∧
    convert "ab" (some [{ kind := .MessageEntityBold, offset := 1, length := 0 }]) "html"
      = none ∧
    convert "ab" (some [{ kind := .MessageEntityBold, offset := 2, length := 0 }]) "html"
      = none := by
  refine ⟨by decide, by decide, by decide⟩

end TelethonMessageConverter
